import Mathlib

/-!
Verification development for the wallet / payment-reconciliation subsystem of
the nextgen-ai-backend repository.

The embedding covers:
* `src/services/paymentService.js` - the four payment gateways (Stripe,
  PayPal, VNPay, MoMo): payment creation, callback verification and refunds.
* the wallet controller (`topupWallet`, `processPayment`,
  `handlePaymentCallback`) backed by the `User`, `Transaction` and `Purchase`
  Mongoose models.
* the `Transaction` instance methods `markCompleted`, `markFailed`,
  `processRefund`.

Modelling conventions:
* JS objects coming from query strings / request bodies are association
  lists `Params := List (String × String)`; a missing key is `undefined`,
  rendered as `Option.none`.
* Monetary amounts are integers (`Int`); the claims under study do not
  depend on fractional values.
* External effects (the Stripe / PayPal HTTP APIs, `crypto.createHmac`,
  MoMo's HTTP endpoint, configuration from `process.env`, the current date)
  are an explicit environment `Env`; an external call that may reject is an
  `Except String` value.
* A JS function that may throw is embedded in `Except String`; a
  `try/catch` block is the `catchToResult` match on that value.
-/

namespace NextGen

/-- A JS object of string-valued fields (query params, request body). -/
abbrev Params := List (String × String)

/-- JS member access `obj.k`: the first binding for `k`, `none` = undefined. -/
def jsGet (q : Params) (k : String) : Option String :=
  (q.find? (fun kv => decide (kv.1 = k))).map (fun kv => kv.2)

/-- JS truthiness of a possibly-undefined string: `undefined` and `""` are falsy. -/
def jsTruthy : Option String → Bool
  | none => false
  | some s => decide (s ≠ "")

/-- JS `a || b` on possibly-undefined strings. -/
def jsOr (a b : Option String) : Option String :=
  if jsTruthy a then a else b

/-- JS string interpolation of a possibly-undefined value (template literals
render `undefined` as the string "undefined"). -/
def jsStr (v : Option String) : String :=
  v.getD "undefined"

/-- Uppercase hex digit for a value below 16 (as used by percent-encoding). -/
def hexDigitChar (n : Nat) : Char :=
  if n < 10 then Char.ofNat (48 + n) else Char.ofNat (55 + n)

/-- Percent-encoding of one byte, e.g. 32 ↦ "%20". -/
def percentByte (b : Nat) : String :=
  "%" ++ String.singleton (hexDigitChar (b / 16 % 16)) ++ String.singleton (hexDigitChar (b % 16))

/-- UTF-8 bytes of a Unicode code point. -/
def utf8Bytes (n : Nat) : List Nat :=
  if n < 128 then [n]
  else if n < 2048 then [192 + n / 64, 128 + n % 64]
  else if n < 65536 then [224 + n / 4096, 128 + n / 64 % 64, 128 + n % 64]
  else [240 + n / 262144, 128 + n / 4096 % 64, 128 + n / 64 % 64, 128 + n % 64]

/-- Characters left unescaped by JS `encodeURIComponent`:
A-Z a-z 0-9 - _ . ! ~ * ' ( ). -/
def isURIUnreserved (c : Char) : Bool :=
  c.isAlpha || c.isDigit || c = '-' || c = '_' || c = '.' || c = '!' ||
    c = '~' || c = '*' || c = '(' || c = ')' || decide (c.toNat = 39)

/-- JS `encodeURIComponent`: unreserved characters kept, all others
percent-encoded as UTF-8 bytes with uppercase hex digits. -/
def encodeURIComponent (s : String) : String :=
  s.data.foldl
    (fun acc c =>
      acc ++ (if isURIUnreserved c then String.singleton c
              else String.join ((utf8Bytes c.toNat).map percentByte)))
    ""

/-- JS `String.prototype.toLowerCase()` (the provider names at issue are
ASCII). -/
def jsToLower (s : String) : String :=
  String.mk (s.data.map Char.toLower)

/-- Boolean string comparison used by JS `Array.prototype.sort()` on keys:
ascending lexicographic order. -/
def strLe (a b : String) : Bool :=
  !(decide (b < a))

/-- Insert into a list sorted by `le` (stable: goes after equal elements
already present... it goes before the first element it is `le` to). -/
def insertSortedBy (le : α → α → Bool) (a : α) : List α → List α
  | [] => [a]
  | b :: l => if le a b then a :: b :: l else b :: insertSortedBy le a l

/-- Insertion sort by a boolean comparison, modelling JS `.sort()`. -/
def sortBy (le : α → α → Bool) : List α → List α
  | [] => []
  | a :: l => insertSortedBy le a (sortBy le l)

/-! ## Payment service (`src/services/paymentService.js`) -/

/-- A Stripe payment intent as returned by the Stripe API. -/
structure StripeIntent where
  id : String
  clientSecret : String
  status : String
  amount : Int
  currency : String
deriving Repr, DecidableEq

/-- A Stripe refund object. -/
structure StripeRefund where
  id : String
  amount : Int
deriving Repr, DecidableEq

/-- A PayPal payment object (the fields the service reads). -/
structure PaypalPayment where
  id : String
  amountTotal : String
  currency : String
deriving Repr, DecidableEq

/-- MoMo's response to a create-payment request. -/
structure MomoCreateResponse where
  resultCode : Int
  payUrl : String
  message : String
deriving Repr, DecidableEq

/-- The external world and configuration of the payment service:
`process.env` configuration, `crypto.createHmac(...).update(m).digest("hex")`
as pure functions of key and message, the current date, and the provider
HTTP APIs (which may reject, i.e. throw). -/
structure Env where
  vnpayTmnCode : String
  vnpayHashSecret : String
  vnpayUrl : String
  vnpayCreateDate : String
  momoPartnerCode : String
  momoAccessKey : String
  momoSecretKey : String
  momoIpnUrl : String
  momoRequestId : String
  hmacSHA512 : String → String → String
  hmacSHA256 : String → String → String
  stripeCreateIntent : Int → String → Except String StripeIntent
  stripeRetrieve : Option String → Except String StripeIntent
  stripeRefundCreate : Option String → Option Int → Except String StripeRefund
  paypalCreate : Int → String → String → String → String → Except String PaypalPayment
  paypalExecute : Option String → Option String → Except String PaypalPayment
  momoPost : Params → Except String MomoCreateResponse

/-- The result object every payment-service operation resolves with: a
`success` flag plus the provider-specific optional fields actually read by
the callers (response bodies elide fields that are always absent on the
branch producing them). -/
structure ServiceResult where
  success : Bool
  error : Option String := none
  clientSecret : Option String := none
  paymentIntentId : Option String := none
  intentStatus : Option String := none
  paymentId : Option String := none
  paymentUrl : Option String := none
  requestId : Option String := none
  refundId : Option String := none
  isValid : Option Bool := none
  isSuccess : Option Bool := none
  data : Option Params := none
deriving Repr, DecidableEq

/-- A `try { body } catch (error) { return { success:false, error } }`
wrapper: a thrown error becomes a normally-returned failure result. -/
def catchToResult (x : Except String ServiceResult) : Except String ServiceResult :=
  match x with
  | .ok r => .ok r
  | .error e => .ok { success := false, error := some e }

namespace stripeService

/-- Body of `stripeService.createPaymentIntent` before the catch:
creates an intent for `Math.round(amount * 100)` cents (exact on integers). -/
def createPaymentIntentRaw (env : Env) (amount : Int) (currency : String) :
    Except String ServiceResult := do
  let intent ← env.stripeCreateIntent (amount * 100) currency
  pure { success := true, clientSecret := some intent.clientSecret,
         paymentIntentId := some intent.id }

/-- `stripeService.createPaymentIntent` (lines 36-64). -/
def createPaymentIntent (env : Env) (amount : Int) (currency : String) :
    Except String ServiceResult :=
  catchToResult (createPaymentIntentRaw env amount currency)

/-- Body of `stripeService.confirmPayment` before the catch: retrieves the
intent and reports success iff its status is "succeeded". -/
def confirmPaymentRaw (env : Env) (paymentIntentId : Option String) :
    Except String ServiceResult := do
  let intent ← env.stripeRetrieve paymentIntentId
  if intent.status = "succeeded" then
    pure { success := true }
  else
    pure { success := false, intentStatus := some intent.status }

/-- `stripeService.confirmPayment` (lines 67-91). -/
def confirmPayment (env : Env) (paymentIntentId : Option String) :
    Except String ServiceResult :=
  catchToResult (confirmPaymentRaw env paymentIntentId)

/-- Body of `stripeService.createRefund` before the catch. -/
def createRefundRaw (env : Env) (paymentIntentId : Option String) (amount : Option Int) :
    Except String ServiceResult := do
  let refund ← env.stripeRefundCreate paymentIntentId (amount.map (· * 100))
  pure { success := true, refundId := some refund.id }

/-- `stripeService.createRefund` (lines 94-111). -/
def createRefund (env : Env) (paymentIntentId : Option String) (amount : Option Int) :
    Except String ServiceResult :=
  catchToResult (createRefundRaw env paymentIntentId amount)

end stripeService

namespace paypalService

/-- `paypalService.createPayment` (lines 117-162): the SDK callback resolves
an error to `{ success:false, error }` rather than throwing. -/
def createPayment (env : Env) (amount : Int) (currency description returnUrl cancelUrl : String) :
    Except String ServiceResult :=
  catchToResult
    (match env.paypalCreate amount currency description returnUrl cancelUrl with
     | .error e => .ok { success := false, error := some e }
     | .ok p => .ok { success := true, paymentId := some p.id })

/-- `paypalService.executePayment` (lines 165-192). -/
def executePayment (env : Env) (paymentId payerId : Option String) :
    Except String ServiceResult :=
  catchToResult
    (match env.paypalExecute paymentId payerId with
     | .error e => .ok { success := false, error := some e }
     | .ok p => .ok { success := true, paymentId := some p.id })

end paypalService

/-- The query string both VNPay functions build from a parameter object:
`Object.keys` of the object, sorted (the `reduce` in the source rebuilds an
object whose key order is the sorted order), each rendered as
`key=encodeURIComponent(value)` and joined with `&`. -/
def sortedQueryString (ps : Params) : String :=
  "&".intercalate ((sortBy strLe (ps.map Prod.fst)).map
    (fun k => k ++ "=" ++ encodeURIComponent (jsStr (jsGet ps k))))

namespace vnpayService

/-- The `vnpParams` object built by `vnpayService.createPaymentUrl`
(insertion order as in the source; numbers rendered as JS does). -/
def createParams (env : Env) (amount : Int) (orderInfo orderId returnUrl : String) : Params :=
  [("vnp_Version", "2.1.0"),
   ("vnp_Command", "pay"),
   ("vnp_TmnCode", env.vnpayTmnCode),
   ("vnp_Amount", toString (amount * 100)),
   ("vnp_CurrCode", "VND"),
   ("vnp_TxnRef", orderId),
   ("vnp_OrderInfo", orderInfo),
   ("vnp_OrderType", "other"),
   ("vnp_Locale", "vn"),
   ("vnp_ReturnUrl", returnUrl),
   ("vnp_IpAddr", "127.0.0.1"),
   ("vnp_CreateDate", env.vnpayCreateDate)]

/-- `vnpayService.createPaymentUrl` (lines 198-253): pure URL construction,
signed with HMAC-SHA512 under the configured hash secret. -/
def createPaymentUrl (env : Env) (amount : Int) (orderInfo orderId returnUrl : String) :
    Except String ServiceResult :=
  catchToResult
    (let queryString := sortedQueryString (createParams env amount orderInfo orderId returnUrl)
     let secureHash := env.hmacSHA512 env.vnpayHashSecret queryString
     .ok { success := true,
           paymentUrl := some (env.vnpayUrl ++ "?" ++ queryString ++ "&vnp_SecureHash=" ++ secureHash) })

/-- Body of `vnpayService.verifyPaymentCallback` (lines 256-305): strips
`vnp_SecureHash`, recomputes the HMAC-SHA512 of the sorted encoded query
string of the remaining parameters, and reports validity (hash equality,
false when no hash was supplied) and success (`vnp_ResponseCode === "00"`). -/
def verifyPaymentCallbackBody (env : Env) (queryParams : Params) : ServiceResult :=
  let suppliedHash := jsGet queryParams "vnp_SecureHash"
  let otherParams := queryParams.filter (fun kv => decide (kv.1 ≠ "vnp_SecureHash"))
  let queryString := sortedQueryString otherParams
  let secureHash := env.hmacSHA512 env.vnpayHashSecret queryString
  let isValid := decide (suppliedHash = some secureHash)
  let isSuccess := decide (jsGet otherParams "vnp_ResponseCode" = some "00")
  { success := isValid && isSuccess,
    isValid := some isValid,
    isSuccess := some isSuccess,
    data := some otherParams }

/-- `vnpayService.verifyPaymentCallback` with its try/catch. -/
def verifyPaymentCallback (env : Env) (queryParams : Params) : Except String ServiceResult :=
  catchToResult (.ok (verifyPaymentCallbackBody env queryParams))

end vnpayService

namespace momoService

/-- The raw signature string of `momoService.createPaymentRequest`. -/
def createRawSignature (env : Env) (amount : Int) (orderInfo orderId returnUrl : String) : String :=
  "accessKey=" ++ env.momoAccessKey ++ "&amount=" ++ toString amount ++
  "&extraData=&ipnUrl=" ++ env.momoIpnUrl ++ "&orderId=" ++ orderId ++
  "&orderInfo=" ++ orderInfo ++ "&partnerCode=" ++ env.momoPartnerCode ++
  "&redirectUrl=" ++ returnUrl ++ "&requestId=" ++ env.momoRequestId ++
  "&requestType=captureWallet"

/-- Body of `momoService.createPaymentRequest` before the catch: signs the
request with HMAC-SHA256, posts it to the MoMo endpoint (which may reject),
and succeeds iff the response's `resultCode` is 0. -/
def createPaymentRequestRaw (env : Env) (amount : Int) (orderInfo orderId returnUrl : String) :
    Except String ServiceResult := do
  let signature := env.hmacSHA256 env.momoSecretKey
    (createRawSignature env amount orderInfo orderId returnUrl)
  let requestBody : Params :=
    [("partnerCode", env.momoPartnerCode), ("accessKey", env.momoAccessKey),
     ("requestId", env.momoRequestId), ("amount", toString amount),
     ("orderId", orderId), ("orderInfo", orderInfo), ("redirectUrl", returnUrl),
     ("ipnUrl", env.momoIpnUrl), ("extraData", ""),
     ("requestType", "captureWallet"), ("signature", signature), ("lang", "vi")]
  let response ← env.momoPost requestBody
  if response.resultCode = 0 then
    pure { success := true, paymentUrl := some response.payUrl,
           requestId := some env.momoRequestId }
  else
    pure { success := false, error := some response.message }

/-- `momoService.createPaymentRequest` (lines 311-372). -/
def createPaymentRequest (env : Env) (amount : Int) (orderInfo orderId returnUrl : String) :
    Except String ServiceResult :=
  catchToResult (createPaymentRequestRaw env amount orderInfo orderId returnUrl)

/-- The raw signature string recomputed by `momoService.verifyPaymentCallback`
(line 390); absent callback fields interpolate as "undefined". -/
def verifyRawSignature (env : Env) (q : Params) : String :=
  "accessKey=" ++ env.momoAccessKey ++ "&amount=" ++ jsStr (jsGet q "amount") ++
  "&extraData=&message=&orderId=" ++ jsStr (jsGet q "orderId") ++
  "&orderInfo=" ++ jsStr (jsGet q "orderInfo") ++
  "&orderType=" ++ jsStr (jsGet q "orderType") ++
  "&partnerCode=" ++ env.momoPartnerCode ++
  "&payType=" ++ jsStr (jsGet q "payType") ++
  "&requestId=" ++ jsStr (jsGet q "requestId") ++
  "&responseTime=&resultCode=" ++ jsStr (jsGet q "resultCode") ++
  "&transId=" ++ jsStr (jsGet q "transId")

/-- Body of `momoService.verifyPaymentCallback` (lines 375-418): validity is
equality of the carried `signature` with the recomputed HMAC-SHA256 (false
when no signature is carried), success is `resultCode === "0"`. -/
def verifyPaymentCallbackBody (env : Env) (q : Params) : ServiceResult :=
  let expectedSignature := env.hmacSHA256 env.momoSecretKey (verifyRawSignature env q)
  let isValid := decide (jsGet q "signature" = some expectedSignature)
  let isSuccess := decide (jsGet q "resultCode" = some "0")
  { success := isValid && isSuccess,
    isValid := some isValid,
    isSuccess := some isSuccess,
    data := some q }

/-- `momoService.verifyPaymentCallback` with its try/catch. -/
def verifyPaymentCallback (env : Env) (q : Params) : Except String ServiceResult :=
  catchToResult (.ok (verifyPaymentCallbackBody env q))

end momoService

namespace paymentService

/-- `paymentService.createPayment` (lines 424-469): dispatch on
`provider.toLowerCase()`, unknown providers get an error result. -/
def createPayment (env : Env) (provider : String) (amount : Int)
    (currency orderInfo orderId returnUrl : String) : Except String ServiceResult :=
  let p := jsToLower provider
  if p = "stripe" then stripeService.createPaymentIntent env amount currency
  else if p = "paypal" then
    paypalService.createPayment env amount currency orderInfo returnUrl
      (returnUrl.replace "return" "cancel")
  else if p = "vnpay" then vnpayService.createPaymentUrl env amount orderInfo orderId returnUrl
  else if p = "momo" then momoService.createPaymentRequest env amount orderInfo orderId returnUrl
  else .ok { success := false, error := some "Unsupported payment provider" }

/-- `paymentService.verifyPayment` (lines 472-489). -/
def verifyPayment (env : Env) (provider : String) (data : Params) : Except String ServiceResult :=
  let p := jsToLower provider
  if p = "stripe" then stripeService.confirmPayment env (jsGet data "paymentIntentId")
  else if p = "paypal" then
    paypalService.executePayment env (jsGet data "paymentId") (jsGet data "payerId")
  else if p = "vnpay" then vnpayService.verifyPaymentCallback env data
  else if p = "momo" then momoService.verifyPaymentCallback env data
  else .ok { success := false, error := some "Unsupported payment provider" }

/-- `paymentService.createRefund` (lines 492-507). -/
def createRefund (env : Env) (provider : String) (paymentId : Option String)
    (amount : Option Int) : Except String ServiceResult :=
  let p := jsToLower provider
  if p = "stripe" then stripeService.createRefund env paymentId amount
  else if p = "paypal" then .ok { success := false, error := some "PayPal refund not implemented" }
  else .ok { success := false, error := some "Refund not supported for this provider" }

end paymentService

/-! ## Wallet data model (`models/User.js`, `models/Transaction.js`,
`models/Purchase.js` via `User.js`) and the wallet controller. -/

/-- Mongo document ids, rendered as strings (`_id.toString()`). -/
abbrev UserId := Nat
abbrev TxId := String
abbrev ProjectId := Nat

/-- The `type` enum of `transactionSchema`. -/
inductive TxType
  | topup | purchase | refundTx | withdrawal | commission
deriving Repr, DecidableEq

/-- The `status` enum of `transactionSchema`. -/
inductive TxStatus
  | pending | processing | completed | failed | cancelled | refunded
deriving Repr, DecidableEq

/-- A `Transaction` document (fields the wallet subsystem reads; `fees`
defaults to 0 and is never set, so `netAmount = amount` throughout and the
pre-save hook recomputing `netAmount = amount - fees` is the identity). -/
structure Transaction where
  user : UserId
  type : TxType
  amount : Int
  status : TxStatus
  paymentMethod : String
  relatedProject : Option ProjectId
  balanceBefore : Int
  balanceAfter : Int
  netAmount : Int
deriving Repr, DecidableEq

/-- The `status` enum of `purchaseSchema`. -/
inductive PurchaseStatus
  | pending | completed | cancelled | refunded
deriving Repr, DecidableEq

/-- A `Purchase` document. -/
structure Purchase where
  user : UserId
  project : ProjectId
  transaction : TxId
  amount : Int
  status : PurchaseStatus
deriving Repr, DecidableEq

/-- The wallet-relevant database state: user balances (the `users`
collection, keyed by id), transactions keyed by id, purchases, and the
source of fresh transaction ids (ObjectId generation). -/
structure WalletState where
  balances : List (UserId × Int)
  transactions : List (TxId × Transaction)
  purchases : List Purchase
  nextTxId : Nat
deriving Repr, DecidableEq

/-- `Transaction.findById`: the document with the given id. -/
def findTx (txs : List (TxId × Transaction)) (id : TxId) : Option Transaction :=
  (txs.find? (fun kv => decide (kv.1 = id))).map (fun kv => kv.2)

/-- Update the document with the given id (ids are unique in a collection,
so updating the first match is `doc.save()` / `findByIdAndUpdate`). -/
def updateTx (txs : List (TxId × Transaction)) (id : TxId) (f : Transaction → Transaction) :
    List (TxId × Transaction) :=
  match txs with
  | [] => []
  | kv :: rest =>
    if kv.1 = id then (kv.1, f kv.2) :: rest else kv :: updateTx rest id f

/-- The balance of the user document with the given id, if any. -/
def lookupBal (bs : List (UserId × Int)) (u : UserId) : Option Int :=
  (bs.find? (fun p => decide (p.1 = u))).map (fun p => p.2)

/-- `req.user.balance` as the controller reads it. -/
def balanceOf (s : WalletState) (u : UserId) : Int :=
  (lookupBal s.balances u).getD 0

/-- `User.findByIdAndUpdate(u, { $inc: { balance: d } })`; user ids are
unique in the collection, so incrementing every entry with that id equals
incrementing the single matching document. -/
def incBalance (bs : List (UserId × Int)) (u : UserId) (d : Int) : List (UserId × Int) :=
  bs.map (fun p => if p.1 = u then (p.1, p.2 + d) else p)

/-- `Purchase.hasUserPurchased` (`User.js` lines 377-383): the completed
purchase of this project by this user, if any. -/
def hasUserPurchased (ps : List Purchase) (u : UserId) (pj : ProjectId) : Option Purchase :=
  ps.find? (fun p => decide (p.user = u ∧ p.project = pj ∧ p.status = PurchaseStatus.completed))

/-- Sum of the amounts of the user's transactions whose status is
'completed'. -/
def completedSum (txs : List (TxId × Transaction)) (u : UserId) : Int :=
  ((txs.filter (fun kv => decide (kv.2.user = u ∧ kv.2.status = TxStatus.completed))).map
    (fun kv => kv.2.amount)).sum

/-- HTTP responses of the wallet controller (JSON bodies reduced to status,
success flag and message; the extra data fields are not at issue in the
claims). `serverError` is the express error handler firing after an
uncaught exception reached `asyncHandler`. -/
inductive WalletResponse
  | json (status : Nat) (ok : Bool) (message : Option String)
  | redirect (url : String)
  | serverError (msg : String)
deriving Repr, DecidableEq

/-- `transactionSchema.methods.markCompleted` (Transaction.js 170-174) as a
database update: set the document's status to 'completed' and save. -/
def markCompleted (s : WalletState) (id : TxId) : WalletState :=
  { s with transactions := updateTx s.transactions id (fun tx => { tx with status := .completed }) }

/-- `transactionSchema.methods.markFailed` (Transaction.js 177-182). -/
def markFailed (s : WalletState) (id : TxId) : WalletState :=
  { s with transactions := updateTx s.transactions id (fun tx => { tx with status := .failed }) }

/-- `transactionSchema.methods.processRefund` (Transaction.js 185-190). -/
def processRefund (s : WalletState) (id : TxId) : WalletState :=
  { s with transactions := updateTx s.transactions id (fun tx => { tx with status := .refunded }) }

/-- `topupWallet` (wallet controller lines 68-124): rejects amounts below 10,
otherwise records one pending 'topup' transaction (balance untouched) and
asks the payment service for a payment; a failed payment creation is
reported with HTTP 400 (the pending transaction stays). -/
def topupWallet (env : Env) (s : WalletState) (u : UserId) (amount : Int)
    (paymentMethod returnUrl : String) : WalletState × WalletResponse :=
  if amount < 10 then
    (s, .json 400 false (some "Minimum top-up amount is $10"))
  else
    let bal := balanceOf s u
    let txId : TxId := toString s.nextTxId
    let tx : Transaction :=
      { user := u, type := .topup, amount := amount, status := .pending,
        paymentMethod := paymentMethod, relatedProject := none,
        balanceBefore := bal, balanceAfter := bal, netAmount := amount }
    let s' : WalletState :=
      { s with transactions := (txId, tx) :: s.transactions, nextTxId := s.nextTxId + 1 }
    match paymentService.createPayment env paymentMethod amount "USD"
        ("Top-up wallet " ++ toString amount ++ " USD") txId returnUrl with
    | .error e => (s', .serverError e)
    | .ok paymentResult =>
      if paymentResult.success then (s', .json 200 true none)
      else (s', .json 400 false paymentResult.error)

/-- `processPayment` (wallet controller lines 187-269): reject an already
purchased project, reject insufficient balance, otherwise record one
completed 'purchase' transaction of amount `-amount`, debit the balance and
record the purchase. -/
def processPayment (s : WalletState) (u : UserId) (projectId : ProjectId)
    (amount : Int) (paymentMethod : String) : WalletState × WalletResponse :=
  if (hasUserPurchased s.purchases u projectId).isSome then
    (s, .json 400 false (some "You have already purchased this project"))
  else if balanceOf s u < amount then
    (s, .json 400 false (some "Insufficient balance"))
  else
    let bal := balanceOf s u
    let txId : TxId := toString s.nextTxId
    let tx : Transaction :=
      { user := u, type := .purchase, amount := -amount, status := .completed,
        paymentMethod := paymentMethod, relatedProject := some projectId,
        balanceBefore := bal, balanceAfter := bal - amount, netAmount := -amount }
    let purchase : Purchase :=
      { user := u, project := projectId, transaction := txId,
        amount := amount, status := .completed }
    ({ balances := incBalance s.balances u (-amount),
       transactions := (txId, tx) :: s.transactions,
       purchases := purchase :: s.purchases,
       nextTxId := s.nextTxId + 1 },
     .json 200 true none)

/-- The transaction reference the callback resolves:
`data.vnp_TxnRef || data.orderId || data.paymentIntentId`, guarded by
`if (transactionId)` (so an empty or absent reference resolves to nothing). -/
def resolvedTxnRef (d : Params) : Option TxId :=
  let t := jsOr (jsGet d "vnp_TxnRef") (jsOr (jsGet d "orderId") (jsGet d "paymentIntentId"))
  if jsTruthy t then t else none

/-- `handlePaymentCallback` (wallet controller lines 274-334): verify the
callback via the payment service; on failure redirect with an error (the
message interpolates `verificationResult.error`, "undefined" when absent);
on success read `verificationResult.data` (for Stripe and PayPal results
this field is absent, so the member access throws and `asyncHandler` turns
it into a server error), resolve the transaction reference, and if it names
a pending transaction mark it completed and credit its amount to its user. -/
def handlePaymentCallback (env : Env) (frontendUrl : String) (s : WalletState)
    (provider : String) (query : Params) : WalletState × WalletResponse :=
  match paymentService.verifyPayment env provider query with
  | .error e => (s, .serverError e)
  | .ok vr =>
    if vr.success then
      match vr.data with
      | none =>
        (s, .serverError "TypeError: Cannot read properties of undefined (reading 'vnp_TxnRef')")
      | some d =>
        match resolvedTxnRef d with
        | none => (s, .redirect (frontendUrl ++ "/wallet/callback?status=success"))
        | some tid =>
          match findTx s.transactions tid with
          | none => (s, .redirect (frontendUrl ++ "/wallet/callback?status=success"))
          | some tx =>
            if tx.status = .pending then
              ({ (markCompleted s tid) with
                 balances := incBalance s.balances tx.user tx.amount },
               .redirect (frontendUrl ++ "/wallet/callback?status=success"))
            else
              (s, .redirect (frontendUrl ++ "/wallet/callback?status=success"))
    else
      (s, .redirect (frontendUrl ++ "/wallet/callback?status=error&message=" ++
        encodeURIComponent (jsStr vr.error)))

/-- The wallet operations exposed by the controller routes. -/
inductive WalletOp
  | topup (env : Env) (u : UserId) (amount : Int) (paymentMethod returnUrl : String)
  | payment (u : UserId) (projectId : ProjectId) (amount : Int) (paymentMethod : String)
  | callback (env : Env) (frontendUrl : String) (provider : String) (query : Params)

/-- State effect of one wallet operation. -/
def applyOp (s : WalletState) : WalletOp → WalletState
  | .topup env u amount method returnUrl => (topupWallet env s u amount method returnUrl).1
  | .payment u pj amount method => (processPayment s u pj amount method).1
  | .callback env fr provider query => (handlePaymentCallback env fr s provider query).1

/-- The empty wallet database over a set of registered users: every user
starts with the schema default balance 0 and no transactions or purchases. -/
def initState (users : List UserId) : WalletState :=
  { balances := users.dedup.map (fun u => (u, 0)),
    transactions := [], purchases := [], nextTxId := 0 }

/-- States reachable from an initial state through wallet operations. -/
inductive Reachable (users : List UserId) : WalletState → Prop
  | init : Reachable users (initState users)
  | step (s : WalletState) (op : WalletOp) :
      Reachable users s → Reachable users (applyOp s op)

/-! ## Invariants -/

/-- Ledger invariant: every user's balance equals the sum of the amounts of
that user's completed transactions. -/
def ledgerInv (s : WalletState) : Prop :=
  ∀ p ∈ s.balances, p.2 = completedSum s.transactions p.1

/-- Every user's balance is non-negative (the `min: 0` constraint of
`userSchema.balance`). -/
def nonNegInv (s : WalletState) : Prop :=
  ∀ p ∈ s.balances, 0 ≤ p.2

/-- Every pending transaction is a top-up of at least the 10-dollar
minimum (only `topupWallet` creates pending transactions). -/
def pendingTopupInv (s : WalletState) : Prop :=
  ∀ kv ∈ s.transactions, kv.2.status = TxStatus.pending →
    kv.2.type = TxType.topup ∧ 10 ≤ kv.2.amount

/-- Number of completed purchases of a project by a user. -/
def purchaseCount (ps : List Purchase) (u : UserId) (pj : ProjectId) : Nat :=
  ps.countP (fun p => decide (p.user = u ∧ p.project = pj ∧ p.status = PurchaseStatus.completed))

/-- At most one completed purchase per user and project (the unique
`{ user: 1, project: 1 }` index of `purchaseSchema`). -/
def purchaseOnceInv (s : WalletState) : Prop :=
  ∀ u pj, purchaseCount s.purchases u pj ≤ 1

/-- The conjunction of the wallet invariants, proved inductive below. -/
def GoodState (s : WalletState) : Prop :=
  ledgerInv s ∧ nonNegInv s ∧ pendingTopupInv s ∧ purchaseOnceInv s

/-! ## Specification-side definitions and concrete test data -/

/-- Contribution of one transaction to a user's completed sum. -/
def txContrib (u : UserId) (tx : Transaction) : Int :=
  if tx.user = u ∧ tx.status = TxStatus.completed then tx.amount else 0

/-- The string VNPay callback verification is specified to sign (following
the specification's words rather than the code): the '&'-joined,
alphabetically key-sorted, URL-encoded `key=value` pairs of all parameters
except `vnp_SecureHash`. -/
def vnpaySignedData (q : Params) : String :=
  "&".intercalate
    ((sortBy (fun a b => strLe a.1 b.1) (q.filter (fun kv => decide (kv.1 ≠ "vnp_SecureHash")))).map
      (fun kv => kv.1 ++ "=" ++ encodeURIComponent kv.2))

/-- The callback data carries a signature matching an HMAC recomputed with
one of the provider functions (the weakest reading of "accepts only if a
recomputed HMAC equals the signature carried in the callback"). -/
def carriesHmacSig (env : Env) (data : Params) : Prop :=
  ∃ kv ∈ data, ∃ key msg, kv.2 = env.hmacSHA512 key msg ∨ kv.2 = env.hmacSHA256 key msg

/-- A concrete environment for witnesses: constant HMACs, offline provider
APIs. -/
def testEnv : Env :=
  { vnpayTmnCode := "TMN", vnpayHashSecret := "secret", vnpayUrl := "https://pay.vnpay.vn",
    vnpayCreateDate := "20250101T000000Z",
    momoPartnerCode := "PC", momoAccessKey := "AK", momoSecretKey := "SK",
    momoIpnUrl := "https://api.example.com/ipn", momoRequestId := "42",
    hmacSHA512 := fun _ _ => "h", hmacSHA256 := fun _ _ => "h",
    stripeCreateIntent := fun _ _ => .error "no network",
    stripeRetrieve := fun _ => .error "no network",
    stripeRefundCreate := fun _ _ => .error "no network",
    paypalCreate := fun _ _ _ _ _ => .error "no network",
    paypalExecute := fun _ _ => .error "no network",
    momoPost := fun _ => .error "no network" }

/-- An environment whose Stripe API reports a succeeded intent while both
HMAC functions output a string occurring nowhere in the callback data. -/
def stripeOkEnv : Env :=
  { testEnv with
    hmacSHA512 := fun _ _ => "ffff", hmacSHA256 := fun _ _ => "ffff",
    stripeRetrieve := fun _ =>
      .ok { id := "pi_1", clientSecret := "cs", status := "succeeded",
            amount := 500, currency := "usd" } }

/-- A VNPay callback query accepted under `testEnv` (its constant HMAC is
the carried hash) whose reference names transaction "0". -/
def vnpayOkQuery : Params :=
  [("vnp_ResponseCode", "00"), ("vnp_TxnRef", "0"), ("vnp_SecureHash", "h")]

/-- The state after one 20-dollar vnpay top-up by user 7 on a fresh store:
one pending top-up transaction with id "0". -/
def topped7 : WalletState :=
  applyOp (initState [7]) (.topup testEnv 7 20 "vnpay" "https://f/return")

/-- The pending transaction recorded in `topped7`. -/
def topped7Tx : Transaction :=
  { user := 7, type := .topup, amount := 20, status := .pending,
    paymentMethod := "vnpay", relatedProject := none,
    balanceBefore := 0, balanceAfter := 0, netAmount := 20 }

/-- The state after user 7 buys project 3 for 0 dollars on a fresh store:
one completed purchase of project 3. -/
def bought7 : WalletState :=
  applyOp (initState [7]) (.payment 7 3 0 "wallet_balance")

/-- `vnpayOkQuery` without its `vnp_SecureHash`: the `data` the verifier
hands back to the callback controller. -/
def vnpayOkData : Params :=
  [("vnp_ResponseCode", "00"), ("vnp_TxnRef", "0")]

/-- The verification result for `vnpayOkQuery` under `testEnv`. -/
def vnpayOkVr : ServiceResult :=
  { success := true, isValid := some true, isSuccess := some true,
    data := some vnpayOkData }

/-- A MoMo callback accepted under `testEnv`. -/
def momoOkQuery : Params :=
  [("orderId", "9"), ("resultCode", "0"), ("signature", "h")]

/-- A four-field VNPay callback query with pairwise distinct keys. -/
def vnpayQuery4 : Params :=
  [("vnp_Amount", "1000"), ("vnp_ResponseCode", "00"),
   ("vnp_SecureHash", "h"), ("vnp_TxnRef", "5")]

theorem completedSum_cons (id : TxId) (tx : Transaction) (txs : List (TxId × Transaction))
    (u : UserId) :
    completedSum ((id, tx) :: txs) u = txContrib u tx + completedSum txs u := by
  unfold completedSum txContrib
  by_cases h : tx.user = u ∧ tx.status = TxStatus.completed <;>
    simp [List.filter_cons, h]

theorem findTx_mem {txs : List (TxId × Transaction)} {id : TxId} {tx : Transaction}
    (h : findTx txs id = some tx) : (id, tx) ∈ txs := by
  unfold findTx at h
  cases hf : txs.find? (fun kv => decide (kv.1 = id)) with
  | none => rw [hf] at h; exact absurd h (by simp)
  | some kv =>
    rw [hf] at h
    have hm := List.mem_of_find?_eq_some hf
    have hp := List.find?_some hf
    simp at h hp
    have : kv = (id, tx) := by
      cases kv; simp_all
    rw [this] at hm; exact hm

theorem updateTx_cons (kv : TxId × Transaction) (rest : List (TxId × Transaction))
    (id : TxId) (f : Transaction → Transaction) :
    updateTx (kv :: rest) id f =
      if kv.1 = id then (kv.1, f kv.2) :: rest else kv :: updateTx rest id f := rfl

theorem completedSum_updateTx {txs : List (TxId × Transaction)} {id : TxId} {tx : Transaction}
    (f : Transaction → Transaction) (h : findTx txs id = some tx) (u : UserId) :
    completedSum (updateTx txs id f) u =
      completedSum txs u - txContrib u tx + txContrib u (f tx) := by
  induction txs with
  | nil => exact absurd h (by simp [findTx])
  | cons kv rest ih =>
    by_cases hk : kv.1 = id
    · have htx : tx = kv.2 := by
        unfold findTx at h
        rw [List.find?_cons_of_pos _ (by simpa using hk)] at h
        simpa using h.symm
      rw [updateTx_cons, if_pos hk, htx]
      have h1 := completedSum_cons kv.1 (f kv.2) rest u
      have h2 : completedSum (kv :: rest) u = txContrib u kv.2 + completedSum rest u :=
        completedSum_cons kv.1 kv.2 rest u
      rw [h1, h2]; ring
    · have hfind : findTx rest id = some tx := by
        unfold findTx at h ⊢
        rw [List.find?_cons_of_neg _ (by simpa using hk)] at h
        exact h
      rw [updateTx_cons, if_neg hk]
      have h1 : completedSum (kv :: updateTx rest id f) u =
          txContrib u kv.2 + completedSum (updateTx rest id f) u :=
        completedSum_cons kv.1 kv.2 (updateTx rest id f) u
      have h2 : completedSum (kv :: rest) u = txContrib u kv.2 + completedSum rest u :=
        completedSum_cons kv.1 kv.2 rest u
      rw [h1, h2, ih hfind]; ring

theorem updateTx_mem {txs : List (TxId × Transaction)} {id : TxId} {f : Transaction → Transaction}
    {kv' : TxId × Transaction} (h : kv' ∈ updateTx txs id f) :
    kv' ∈ txs ∨ ∃ kv ∈ txs, kv' = (kv.1, f kv.2) := by
  induction txs with
  | nil => exact absurd h (by simp [updateTx])
  | cons kv rest ih =>
    rw [updateTx_cons] at h
    by_cases hk : kv.1 = id
    · rw [if_pos hk] at h
      rcases List.mem_cons.mp h with h1 | h1
      · exact Or.inr ⟨kv, List.mem_cons_self _ _, h1⟩
      · exact Or.inl (List.mem_cons_of_mem _ h1)
    · rw [if_neg hk] at h
      rcases List.mem_cons.mp h with h1 | h1
      · exact Or.inl (h1 ▸ List.mem_cons_self _ _)
      · rcases ih h1 with h2 | ⟨kv0, hm, he⟩
        · exact Or.inl (List.mem_cons_of_mem _ h2)
        · exact Or.inr ⟨kv0, List.mem_cons_of_mem _ hm, he⟩

theorem findTx_updateTx_self (txs : List (TxId × Transaction)) (id : TxId)
    (f : Transaction → Transaction) :
    findTx (updateTx txs id f) id = (findTx txs id).map f := by
  induction txs with
  | nil => simp [updateTx, findTx]
  | cons kv rest ih =>
    by_cases hk : kv.1 = id
    · rw [updateTx_cons, if_pos hk]
      unfold findTx
      rw [List.find?_cons_of_pos _ (by simpa using hk),
        List.find?_cons_of_pos _ (by simpa using hk)]
      rfl
    · rw [updateTx_cons, if_neg hk]
      unfold findTx
      rw [List.find?_cons_of_neg _ (by simpa using hk),
        List.find?_cons_of_neg _ (by simpa using hk)]
      exact ih

theorem lookupBal_incBalance_self (bs : List (UserId × Int)) (u : UserId) (d : Int) :
    lookupBal (incBalance bs u d) u = (lookupBal bs u).map (· + d) := by
  induction bs with
  | nil => simp [incBalance, lookupBal]
  | cons p rest ih =>
    by_cases hp : p.1 = u
    · unfold incBalance lookupBal
      rw [List.map_cons, if_pos hp]
      rw [List.find?_cons_of_pos _ (by simpa using hp),
        List.find?_cons_of_pos _ (by simpa using hp)]
      rfl
    · unfold incBalance lookupBal
      rw [List.map_cons, if_neg hp]
      rw [List.find?_cons_of_neg _ (by simpa using hp),
        List.find?_cons_of_neg _ (by simpa using hp)]
      exact ih

theorem lookupBal_eq_some_mem {bs : List (UserId × Int)} {u : UserId} {b : Int}
    (h : lookupBal bs u = some b) : (u, b) ∈ bs := by
  unfold lookupBal at h
  cases hf : bs.find? (fun p => decide (p.1 = u)) with
  | none => rw [hf] at h; exact absurd h (by simp)
  | some p =>
    rw [hf] at h
    have hm := List.mem_of_find?_eq_some hf
    have hp := List.find?_some hf
    simp at h hp
    have : p = (u, b) := by cases p; simp_all
    rw [this] at hm; exact hm

theorem lookupBal_isSome_of_mem {bs : List (UserId × Int)} {u : UserId} {v : Int}
    (h : (u, v) ∈ bs) : ∃ b, lookupBal bs u = some b := by
  unfold lookupBal
  cases hf : bs.find? (fun p => decide (p.1 = u)) with
  | none =>
    have := List.find?_eq_none.mp hf (u, v) h
    simp at this
  | some p => exact ⟨p.2, by simp⟩

theorem purchaseCount_eq_zero_of_none {ps : List Purchase} {u : UserId} {pj : ProjectId}
    (h : hasUserPurchased ps u pj = none) : purchaseCount ps u pj = 0 := by
  unfold hasUserPurchased at h
  unfold purchaseCount
  exact List.countP_eq_zero.mpr (List.find?_eq_none.mp h)

/-- The state effect of `topupWallet`: nothing below the minimum, otherwise
one new pending top-up transaction, whatever the payment provider said. -/
theorem topupWallet_state (env : Env) (s : WalletState) (u : UserId) (amount : Int)
    (m r : String) :
    (topupWallet env s u amount m r).1 =
      if amount < 10 then s else
      { s with
        transactions := (toString s.nextTxId,
          { user := u, type := .topup, amount := amount, status := .pending,
            paymentMethod := m, relatedProject := none,
            balanceBefore := balanceOf s u, balanceAfter := balanceOf s u,
            netAmount := amount }) :: s.transactions,
        nextTxId := s.nextTxId + 1 } := by
  unfold topupWallet
  by_cases h : amount < 10
  · simp [h]
  · simp only [if_neg h]
    cases paymentService.createPayment env m amount "USD"
        ("Top-up wallet " ++ toString amount ++ " USD") (toString s.nextTxId) r with
    | error e => rfl
    | ok pr =>
      by_cases hp : pr.success = true
      · simp [hp]
      · simp [hp]

theorem goodState_topup (env : Env) (s : WalletState) (u : UserId) (amount : Int)
    (m r : String) (hg : GoodState s) :
    GoodState (topupWallet env s u amount m r).1 := by
  rw [topupWallet_state]
  by_cases h : amount < 10
  · rwa [if_pos h]
  · rw [if_neg h]
    obtain ⟨hl, hn, hp, ho⟩ := hg
    refine ⟨?_, hn, ?_, ho⟩
    · intro p hmem
      have hb := hl p hmem
      show p.2 = completedSum (_ :: s.transactions) p.1
      rw [completedSum_cons]
      simp only [txContrib]
      rw [if_neg (by simp)]
      simpa using hb
    · intro kv hkv hpend
      rcases List.mem_cons.mp hkv with he | hm
      · subst he
        refine ⟨rfl, ?_⟩
        show (10 : Int) ≤ amount
        omega
      · exact hp kv hm hpend

theorem goodState_payment (s : WalletState) (u : UserId) (pj : ProjectId)
    (amount : Int) (m : String) (hg : GoodState s) :
    GoodState (processPayment s u pj amount m).1 := by
  obtain ⟨hl, hn, hp, ho⟩ := hg
  unfold processPayment
  by_cases h1 : (hasUserPurchased s.purchases u pj).isSome = true
  · simpa [h1] using ⟨hl, hn, hp, ho⟩
  · by_cases h2 : balanceOf s u < amount
    · simpa [h1, h2] using ⟨hl, hn, hp, ho⟩
    · rw [if_neg h1, if_neg h2]
      -- the mutated state
      have hple : amount ≤ balanceOf s u := not_lt.mp h2
      refine ⟨?_, ?_, ?_, ?_⟩
      · intro p' hp'
        obtain ⟨p, hmem, rfl⟩ := List.mem_map.mp hp'
        by_cases hu : p.1 = u
        · rw [if_pos hu]
          show p.2 + -amount = completedSum (_ :: s.transactions) p.1
          rw [completedSum_cons]
          simp only [txContrib]
          rw [if_pos (by exact ⟨hu.symm, by trivial⟩)]
          have := hl p hmem
          omega
        · rw [if_neg hu]
          show p.2 = completedSum (_ :: s.transactions) p.1
          rw [completedSum_cons]
          simp only [txContrib]
          rw [if_neg (by rintro ⟨he, -⟩; exact hu he.symm)]
          have := hl p hmem
          omega
      · intro p' hp'
        obtain ⟨p, hmem, rfl⟩ := List.mem_map.mp hp'
        by_cases hu : p.1 = u
        · rw [if_pos hu]
          show 0 ≤ p.2 + -amount
          have hmem' : (u, p.2) ∈ s.balances := by
            have : p = (u, p.2) := by cases p; simp_all
            rwa [this] at hmem
          obtain ⟨b, hb⟩ := lookupBal_isSome_of_mem hmem'
          have hbmem := lookupBal_eq_some_mem hb
          have hb1 : b = completedSum s.transactions u := hl (u, b) hbmem
          have hb2 : p.2 = completedSum s.transactions u := by
            have := hl p hmem; rwa [hu] at this
          have : balanceOf s u = b := by unfold balanceOf; rw [hb]; rfl
          omega
        · rw [if_neg hu]
          exact hn p hmem
      · intro kv hkv hpend
        rcases List.mem_cons.mp hkv with he | hm
        · rw [he] at hpend
          simp at hpend
        · exact hp kv hm hpend
      · intro u' pj'
        show purchaseCount (_ :: s.purchases) u' pj' ≤ 1
        have ho' := ho u' pj'
        unfold purchaseCount at ho' ⊢
        rw [List.countP_cons]
        by_cases hc : u = u' ∧ pj = pj'
        · have h0 : hasUserPurchased s.purchases u pj = none := by
            cases hh : hasUserPurchased s.purchases u pj with
            | none => rfl
            | some v => rw [hh] at h1; simp at h1
          have hz := purchaseCount_eq_zero_of_none h0
          unfold purchaseCount at hz
          rw [hc.1, hc.2] at hz
          rw [hz]
          split <;> omega
        · rw [if_neg (by simp only [decide_eq_true_eq]; rintro ⟨ha, hb, -⟩; exact hc ⟨ha, hb⟩)]
          simpa using ho'

theorem goodState_callback (env : Env) (fr : String) (s : WalletState)
    (provider : String) (query : Params) (hg : GoodState s) :
    GoodState (handlePaymentCallback env fr s provider query).1 := by
  obtain ⟨hl, hn, hp, ho⟩ := hg
  unfold handlePaymentCallback
  cases hv : paymentService.verifyPayment env provider query with
  | error e => exact ⟨hl, hn, hp, ho⟩
  | ok vr =>
    by_cases hs : vr.success = true
    · simp only [hs, if_true]
      cases hd : vr.data with
      | none => exact ⟨hl, hn, hp, ho⟩
      | some d =>
        dsimp only
        cases ht : resolvedTxnRef d with
        | none => exact ⟨hl, hn, hp, ho⟩
        | some tid =>
          dsimp only
          cases hf : findTx s.transactions tid with
          | none => exact ⟨hl, hn, hp, ho⟩
          | some tx =>
            dsimp only
            by_cases hst : tx.status = TxStatus.pending
            · rw [if_pos hst]
              have hamt : 10 ≤ tx.amount := (hp (tid, tx) (findTx_mem hf) hst).2
              refine ⟨?_, ?_, ?_, ho⟩
              · intro p' hp'
                obtain ⟨p, hmem, rfl⟩ := List.mem_map.mp hp'
                have hsum := completedSum_updateTx
                  (fun t => { t with status := TxStatus.completed }) hf p.1
                by_cases hu : p.1 = tx.user
                · rw [if_pos hu]
                  show p.2 + tx.amount = completedSum (updateTx s.transactions tid _) p.1
                  rw [hsum]
                  simp only [txContrib]
                  rw [if_neg (by rintro ⟨-, hc⟩; rw [hst] at hc; exact absurd hc (by simp))]
                  rw [if_pos (by exact ⟨hu.symm, by trivial⟩)]
                  have := hl p hmem
                  omega
                · rw [if_neg hu]
                  show p.2 = completedSum (updateTx s.transactions tid _) p.1
                  rw [hsum]
                  simp only [txContrib]
                  rw [if_neg (by rintro ⟨-, hc⟩; rw [hst] at hc; exact absurd hc (by simp))]
                  rw [if_neg (by rintro ⟨he, -⟩; exact hu he.symm)]
                  have := hl p hmem
                  omega
              · intro p' hp'
                obtain ⟨p, hmem, rfl⟩ := List.mem_map.mp hp'
                by_cases hu : p.1 = tx.user
                · rw [if_pos hu]
                  have := hn p hmem
                  show 0 ≤ p.2 + tx.amount
                  omega
                · rw [if_neg hu]
                  exact hn p hmem
              · intro kv' hkv' hpend
                rcases updateTx_mem hkv' with hm | ⟨kv, hm, he⟩
                · exact hp kv' hm hpend
                · rw [he] at hpend
                  simp at hpend
            · rw [if_neg hst]
              exact ⟨hl, hn, hp, ho⟩
    · simp only [hs, if_false]
      exact ⟨hl, hn, hp, ho⟩

theorem goodState_applyOp (s : WalletState) (op : WalletOp) (hg : GoodState s) :
    GoodState (applyOp s op) := by
  cases op with
  | topup env u amount m r => exact goodState_topup env s u amount m r hg
  | payment u pj amount m => exact goodState_payment s u pj amount m hg
  | callback env fr provider query => exact goodState_callback env fr s provider query hg

theorem goodState_init (users : List UserId) : GoodState (initState users) := by
  refine ⟨?_, ?_, ?_, ?_⟩
  · intro p hp
    obtain ⟨u, -, rfl⟩ := List.mem_map.mp hp
    simp [completedSum, initState]
  · intro p hp
    obtain ⟨u, -, rfl⟩ := List.mem_map.mp hp
    simp
  · intro kv hkv _
    exact absurd hkv (by simp [initState])
  · intro u pj
    simp [initState, purchaseCount]

theorem reachable_goodState {users : List UserId} {s : WalletState}
    (h : Reachable users s) : GoodState s := by
  induction h with
  | init => exact goodState_init users
  | step s op _ ih => exact goodState_applyOp s op ih

/-! ## Sorting and lookup lemmas for the VNPay canonical string -/

theorem insertSortedBy_cons (le : α → α → Bool) (a b : α) (l : List α) :
    insertSortedBy le a (b :: l) =
      if le a b then a :: b :: l else b :: insertSortedBy le a l := rfl

theorem insertSortedBy_map_fst {β : Type} (le : String → String → Bool)
    (p : String × β) (l : List (String × β)) :
    (insertSortedBy (fun a b => le a.1 b.1) p l).map Prod.fst =
      insertSortedBy le p.1 (l.map Prod.fst) := by
  induction l with
  | nil => rfl
  | cons b rest ih =>
    rw [List.map_cons, insertSortedBy_cons, insertSortedBy_cons]
    by_cases h : le p.1 b.1 = true
    · rw [if_pos h, if_pos h]
      rfl
    · rw [if_neg h, if_neg h, List.map_cons, ih]

theorem sortBy_map_fst {β : Type} (le : String → String → Bool) (l : List (String × β)) :
    (sortBy (fun a b => le a.1 b.1) l).map Prod.fst = sortBy le (l.map Prod.fst) := by
  induction l with
  | nil => rfl
  | cons p rest ih =>
    show (insertSortedBy (fun a b => le a.1 b.1) p
        (sortBy (fun a b => le a.1 b.1) rest)).map Prod.fst =
      insertSortedBy le p.1 (sortBy le (rest.map Prod.fst))
    rw [insertSortedBy_map_fst, ih]

theorem mem_insertSortedBy {le : α → α → Bool} {x a : α} {l : List α}
    (h : x ∈ insertSortedBy le a l) : x = a ∨ x ∈ l := by
  induction l with
  | nil =>
    simp [insertSortedBy] at h
    exact Or.inl h
  | cons b rest ih =>
    unfold insertSortedBy at h
    by_cases hc : le a b = true
    · rw [if_pos hc] at h
      rcases List.mem_cons.mp h with h1 | h1
      · exact Or.inl h1
      · exact Or.inr h1
    · rw [if_neg hc] at h
      rcases List.mem_cons.mp h with h1 | h1
      · exact Or.inr (h1 ▸ List.mem_cons_self _ _)
      · rcases ih h1 with h2 | h2
        · exact Or.inl h2
        · exact Or.inr (List.mem_cons_of_mem _ h2)

theorem mem_sortBy {le : α → α → Bool} {x : α} {l : List α}
    (h : x ∈ sortBy le l) : x ∈ l := by
  induction l with
  | nil => simp [sortBy] at h
  | cons a rest ih =>
    unfold sortBy at h
    rcases mem_insertSortedBy h with h1 | h1
    · exact h1 ▸ List.mem_cons_self _ _
    · exact List.mem_cons_of_mem _ (ih h1)

theorem jsGet_of_mem_nodup {l : Params} {k v : String}
    (hnd : (l.map Prod.fst).Nodup) (h : (k, v) ∈ l) : jsGet l k = some v := by
  induction l with
  | nil => exact absurd h (by simp)
  | cons p rest ih =>
    rcases List.mem_cons.mp h with h1 | h1
    · unfold jsGet
      rw [List.find?_cons_of_pos _ (by rw [← h1]; simp)]
      rw [← h1]
      rfl
    · have hk : p.1 ≠ k := by
        intro he
        have : k ∈ rest.map Prod.fst := List.mem_map.mpr ⟨(k, v), h1, rfl⟩
        rw [List.map_cons] at hnd
        exact (List.nodup_cons.mp hnd).1 (he ▸ this)
      unfold jsGet
      rw [List.find?_cons_of_neg _ (by simpa using hk)]
      exact ih (by rw [List.map_cons] at hnd; exact (List.nodup_cons.mp hnd).2) h1

theorem jsGet_filter_ne {q : Params} {k k0 : String} (h : k ≠ k0) :
    jsGet (q.filter (fun kv => decide (kv.1 ≠ k0))) k = jsGet q k := by
  induction q with
  | nil => rfl
  | cons p rest ih =>
    by_cases hp : p.1 = k0
    · rw [List.filter_cons_of_neg (by simpa using hp)]
      unfold jsGet
      rw [List.find?_cons_of_neg _ (by simp; intro he; exact h (he ▸ hp))]
      exact ih
    · rw [List.filter_cons_of_pos (by simpa using hp)]
      by_cases hk : p.1 = k
      · unfold jsGet
        rw [List.find?_cons_of_pos _ (by simpa using hk),
          List.find?_cons_of_pos _ (by simpa using hk)]
      · unfold jsGet
        rw [List.find?_cons_of_neg _ (by simpa using hk),
          List.find?_cons_of_neg _ (by simpa using hk)]
        exact ih

/-- The query string the implementation builds (sorted keys, each looked up
in the object) is the specification's sorted list of encoded pairs, for
objects, whose keys are unique. -/
theorem sortedQueryString_eq_signedPairs {ps : Params}
    (hnd : (ps.map Prod.fst).Nodup) :
    sortedQueryString ps =
      "&".intercalate ((sortBy (fun a b => strLe a.1 b.1) ps).map
        (fun kv => kv.1 ++ "=" ++ encodeURIComponent kv.2)) := by
  unfold sortedQueryString
  rw [← sortBy_map_fst strLe ps, List.map_map]
  congr 1
  apply List.map_congr_left
  intro kv hkv
  have hmem : kv ∈ ps := mem_sortBy hkv
  have : jsGet ps kv.1 = some kv.2 := jsGet_of_mem_nodup hnd (by
    have : (kv.1, kv.2) = kv := rfl
    rw [this]; exact hmem)
  show kv.1 ++ "=" ++ encodeURIComponent (jsStr (jsGet ps kv.1)) = _
  rw [this]
  rfl

/-! ## Claims -/

/-- C1 (amended): in every reachable state every user's balance equals the
sum of that user's completed transaction amounts, and the equality is
preserved by every wallet operation (`topupWallet`, `processPayment`,
`handlePaymentCallback` - the latter applying `markCompleted` together with
the balance credit). The bare status-change methods `markCompleted` and
`processRefund` are not preservers: they move a transaction in or out of
the completed set without adjusting the balance (see the counterexample). -/
theorem ledger_invariant_reachable (users : List UserId) (s : WalletState)
    (h : Reachable users s) :
    ledgerInv s ∧ ∀ op : WalletOp, ledgerInv (applyOp s op) :=
  ⟨(reachable_goodState h).1, fun op => (goodState_applyOp s op (reachable_goodState h)).1⟩

/-- C1 witness: the invariant holds in a concrete reachable state. -/
theorem ledger_invariant_reachable_witness :
    ledgerInv topped7 ∧ ∀ op : WalletOp, ledgerInv (applyOp topped7 op) :=
  ledger_invariant_reachable [7] topped7 (Reachable.step _ _ Reachable.init)

/-- C1 counterexample: `topped7` is reachable and satisfies the ledger
equality, but applying the bare `markCompleted` to its pending transaction
"0" breaks the equality: the claim that the equality is preserved by every
transaction status change is false. -/
theorem ledger_invariant_counterexample :
    Reachable [7] topped7 ∧ ledgerInv topped7 ∧
      ¬ ledgerInv (markCompleted topped7 "0") := by
  refine ⟨Reachable.step _ _ Reachable.init, ?_, ?_⟩
  · unfold ledgerInv
    decide
  · unfold ledgerInv
    decide

/-- C8: every reachable state has only non-negative balances, and every
wallet operation preserves this: `processPayment` debits only after the
balance check, `topupWallet` does not touch the balance, and
`handlePaymentCallback` only credits the positive amount of a pending
top-up transaction. -/
theorem nonneg_balance_reachable (users : List UserId) (s : WalletState)
    (h : Reachable users s) :
    nonNegInv s ∧ ∀ op : WalletOp, nonNegInv (applyOp s op) :=
  ⟨(reachable_goodState h).2.1, fun op => (goodState_applyOp s op (reachable_goodState h)).2.1⟩

/-- C8 witness: non-negativity in a concrete reachable state. -/
theorem nonneg_balance_reachable_witness :
    nonNegInv bought7 ∧ ∀ op : WalletOp, nonNegInv (applyOp bought7 op) :=
  nonneg_balance_reachable [7] bought7 (Reachable.step _ _ Reachable.init)

/-- C9: `topupWallet` rejects any amount below 10 with HTTP 400 and the
message "Minimum top-up amount is $10", changing nothing; for an amount of
at least 10 it changes the state exactly by recording one new 'topup'
transaction with status 'pending' whose `balanceBefore` and `balanceAfter`
both equal the user's current balance (balances and purchases untouched). -/
theorem topup_minimum (env : Env) (s : WalletState) (u : UserId) (amount : Int)
    (m r : String) :
    (amount < 10 →
      topupWallet env s u amount m r =
        (s, .json 400 false (some "Minimum top-up amount is $10"))) ∧
    (10 ≤ amount →
      (topupWallet env s u amount m r).1 =
        { s with
          transactions := (toString s.nextTxId,
            { user := u, type := .topup, amount := amount, status := .pending,
              paymentMethod := m, relatedProject := none,
              balanceBefore := balanceOf s u, balanceAfter := balanceOf s u,
              netAmount := amount }) :: s.transactions,
          nextTxId := s.nextTxId + 1 }) := by
  constructor
  · intro h
    unfold topupWallet
    rw [if_pos h]
  · intro h
    rw [topupWallet_state, if_neg (by omega)]

/-- C9 witness: a 5-dollar top-up is rejected without a transaction; a
20-dollar top-up creates exactly the one pending transaction. -/
theorem topup_minimum_witness :
    ((5 : Int) < 10 ∧ topupWallet testEnv (initState [7]) 7 5 "vnpay" "r" =
      (initState [7], .json 400 false (some "Minimum top-up amount is $10"))) ∧
    ((10 : Int) ≤ 20 ∧ (topupWallet testEnv (initState [7]) 7 20 "vnpay" "r").1 =
      { initState [7] with transactions := [("0", topped7Tx)], nextTxId := 1 }) :=
  ⟨⟨by decide, (topup_minimum testEnv (initState [7]) 7 5 "vnpay" "r").1 (by decide)⟩,
   ⟨by decide, (topup_minimum testEnv (initState [7]) 7 20 "vnpay" "r").2 (by decide)⟩⟩

/-- C10: in every reachable state there is at most one completed purchase
per user and project, and `processPayment` for an already purchased project
answers HTTP 400 "You have already purchased this project" leaving the
state (balances, transactions, purchases) unchanged. -/
theorem no_duplicate_purchase (users : List UserId) (s : WalletState)
    (h : Reachable users s) :
    purchaseOnceInv s ∧
    ∀ (u : UserId) (pj : ProjectId) (amount : Int) (m : String),
      (hasUserPurchased s.purchases u pj).isSome = true →
      processPayment s u pj amount m =
        (s, .json 400 false (some "You have already purchased this project")) := by
  refine ⟨(reachable_goodState h).2.2.2, ?_⟩
  intro u pj amount m hdup
  unfold processPayment
  rw [if_pos hdup]

/-- C10 witness: after user 7 buys project 3, a second purchase attempt is
rejected and the state is returned unchanged. -/
theorem no_duplicate_purchase_witness :
    processPayment bought7 7 3 5 "wallet_balance" =
      (bought7, .json 400 false (some "You have already purchased this project")) :=
  (no_duplicate_purchase [7] bought7 (Reachable.step _ _ Reachable.init)).2
    7 3 5 "wallet_balance" (by decide)

/-- C5: when the payment service rejects a callback (`success = false`),
`handlePaymentCallback` returns the state unchanged - no transaction and no
balance is touched - and responds with the error redirect. -/
theorem callback_error_redirect (env : Env) (fr : String) (s : WalletState)
    (provider : String) (query : Params) (vr : ServiceResult)
    (hv : paymentService.verifyPayment env provider query = .ok vr)
    (hs : vr.success = false) :
    handlePaymentCallback env fr s provider query =
      (s, .redirect (fr ++ "/wallet/callback?status=error&message=" ++
        encodeURIComponent (jsStr vr.error))) := by
  unfold handlePaymentCallback
  rw [hv]
  dsimp only
  rw [hs, if_neg (by simp)]

/-- C5 witness: a callback for an unknown provider fails verification and
redirects with an error, with the state unchanged. -/
theorem callback_error_redirect_witness :
    handlePaymentCallback testEnv "https://f" (initState [7]) "bitcoin" [] =
      (initState [7], .redirect ("https://f/wallet/callback?status=error&message=" ++
        encodeURIComponent (jsStr (some "Unsupported payment provider")))) :=
  callback_error_redirect testEnv "https://f" (initState [7]) "bitcoin" []
    { success := false, error := some "Unsupported payment provider" } (by rfl) rfl

/-- How `handlePaymentCallback` acts once verification succeeded and the
reference resolves to a stored transaction: complete-and-credit if the
transaction is still pending, otherwise no state change; both cases
redirect with success. -/
theorem handleCallback_found_eq (env : Env) (fr : String) (s : WalletState)
    (provider : String) (query : Params) (vr : ServiceResult) (d : Params)
    (tid : TxId) (tx : Transaction)
    (hv : paymentService.verifyPayment env provider query = .ok vr)
    (hs : vr.success = true) (hd : vr.data = some d)
    (ht : resolvedTxnRef d = some tid)
    (hf : findTx s.transactions tid = some tx) :
    handlePaymentCallback env fr s provider query =
      if tx.status = TxStatus.pending then
        ({ s with balances := incBalance s.balances tx.user tx.amount,
                  transactions := updateTx s.transactions tid
                    (fun t => { t with status := TxStatus.completed }) },
         .redirect (fr ++ "/wallet/callback?status=success"))
      else (s, .redirect (fr ++ "/wallet/callback?status=success")) := by
  unfold handlePaymentCallback
  rw [hv]
  dsimp only
  rw [hs, if_pos rfl, hd]
  dsimp only
  rw [ht]
  dsimp only
  rw [hf]
  dsimp only
  by_cases hst : tx.status = TxStatus.pending
  · rw [if_pos hst, if_pos hst]
    rfl
  · rw [if_neg hst, if_neg hst]

/-- C2: a verified callback whose reference resolves to a stored
transaction is idempotent: a second run with the same callback data changes
nothing (same statuses, same balances, same response), and the user's
balance is credited exactly once because the credit fires only while the
transaction is still pending. -/
theorem callback_idempotent (env : Env) (fr : String) (s : WalletState)
    (provider : String) (query : Params) (vr : ServiceResult) (d : Params)
    (tid : TxId) (tx : Transaction)
    (hv : paymentService.verifyPayment env provider query = .ok vr)
    (hs : vr.success = true) (hd : vr.data = some d)
    (ht : resolvedTxnRef d = some tid)
    (hf : findTx s.transactions tid = some tx) :
    handlePaymentCallback env fr
        (handlePaymentCallback env fr s provider query).1 provider query =
      handlePaymentCallback env fr s provider query ∧
    (tx.status = TxStatus.pending →
      ∀ b, lookupBal s.balances tx.user = some b →
        lookupBal (handlePaymentCallback env fr s provider query).1.balances tx.user =
          some (b + tx.amount)) := by
  have h1 := handleCallback_found_eq env fr s provider query vr d tid tx hv hs hd ht hf
  by_cases hst : tx.status = TxStatus.pending
  · rw [if_pos hst] at h1
    constructor
    · have hf2 : findTx (updateTx s.transactions tid
          (fun t => { t with status := TxStatus.completed })) tid =
          some { tx with status := TxStatus.completed } := by
        rw [findTx_updateTx_self, hf]
        rfl
      have h2 := handleCallback_found_eq env fr
        { s with balances := incBalance s.balances tx.user tx.amount,
                 transactions := updateTx s.transactions tid
                   (fun t => { t with status := TxStatus.completed }) }
        provider query vr d tid { tx with status := TxStatus.completed }
        hv hs hd ht hf2
      rw [if_neg (by simp)] at h2
      rw [h1]
      exact h2
    · intro _ b hb
      rw [h1]
      show lookupBal (incBalance s.balances tx.user tx.amount) tx.user = some (b + tx.amount)
      rw [lookupBal_incBalance_self, hb]
      rfl
  · rw [if_neg hst] at h1
    refine ⟨?_, fun hpend => absurd hpend hst⟩
    rw [h1]
    exact h1

/-- C2 witness: the concrete verified VNPay callback for the pending
top-up "0" credits user 7 once and a second delivery changes nothing. -/
theorem callback_idempotent_witness :
    handlePaymentCallback testEnv "https://f"
        (handlePaymentCallback testEnv "https://f" topped7 "vnpay" vnpayOkQuery).1
        "vnpay" vnpayOkQuery =
      handlePaymentCallback testEnv "https://f" topped7 "vnpay" vnpayOkQuery ∧
    (topped7Tx.status = TxStatus.pending →
      ∀ b, lookupBal topped7.balances topped7Tx.user = some b →
        lookupBal (handlePaymentCallback testEnv "https://f" topped7 "vnpay"
            vnpayOkQuery).1.balances topped7Tx.user =
          some (b + topped7Tx.amount)) :=
  callback_idempotent testEnv "https://f" topped7 "vnpay" vnpayOkQuery
    vnpayOkVr vnpayOkData "0" topped7Tx (by rfl) rfl rfl (by rfl) (by rfl)

/-- C3: VNPay callback verification succeeds iff the carried
`vnp_SecureHash` equals the hex HMAC-SHA512, keyed with the configured hash
secret, of the '&'-joined, alphabetically key-sorted, URL-encoded
`key=value` pairs of all parameters except `vnp_SecureHash`, and
`vnp_ResponseCode` is the string "00"; `isValid` and `isSuccess` report the
two conditions separately. -/
theorem vnpay_verify_correct (env : Env) (q : Params)
    (hnd : (q.map Prod.fst).Nodup) :
    ∃ r, vnpayService.verifyPaymentCallback env q = .ok r ∧
      (r.success = true ↔
        jsGet q "vnp_SecureHash" =
          some (env.hmacSHA512 env.vnpayHashSecret (vnpaySignedData q)) ∧
        jsGet q "vnp_ResponseCode" = some "00") ∧
      r.isValid = some (decide (jsGet q "vnp_SecureHash" =
        some (env.hmacSHA512 env.vnpayHashSecret (vnpaySignedData q)))) ∧
      r.isSuccess = some (decide (jsGet q "vnp_ResponseCode" = some "00")) := by
  have hnd' : ((q.filter (fun kv => decide (kv.1 ≠ "vnp_SecureHash"))).map Prod.fst).Nodup :=
    ((q.filter_sublist).map Prod.fst).nodup hnd
  have hqs : sortedQueryString (q.filter (fun kv => decide (kv.1 ≠ "vnp_SecureHash"))) =
      vnpaySignedData q := by
    rw [sortedQueryString_eq_signedPairs hnd']
    rfl
  have hrc : jsGet (q.filter (fun kv => decide (kv.1 ≠ "vnp_SecureHash"))) "vnp_ResponseCode" =
      jsGet q "vnp_ResponseCode" :=
    jsGet_filter_ne (by decide)
  refine ⟨vnpayService.verifyPaymentCallbackBody env q, rfl, ?_, ?_, ?_⟩
  · show (vnpayService.verifyPaymentCallbackBody env q).success = true ↔ _
    unfold vnpayService.verifyPaymentCallbackBody
    dsimp only
    rw [hqs, hrc]
    simp only [Bool.and_eq_true, decide_eq_true_eq]
  · show (vnpayService.verifyPaymentCallbackBody env q).isValid = _
    unfold vnpayService.verifyPaymentCallbackBody
    dsimp only
    rw [hqs]
  · show (vnpayService.verifyPaymentCallbackBody env q).isSuccess = _
    unfold vnpayService.verifyPaymentCallbackBody
    dsimp only
    rw [hrc]

/-- C3 witness: the characterisation applied to a concrete four-field
query. -/
theorem vnpay_verify_correct_witness :
    (vnpayQuery4.map Prod.fst).Nodup ∧
    (∃ r, vnpayService.verifyPaymentCallback testEnv vnpayQuery4 = .ok r ∧
      (r.success = true ↔
        jsGet vnpayQuery4 "vnp_SecureHash" =
          some (testEnv.hmacSHA512 testEnv.vnpayHashSecret (vnpaySignedData vnpayQuery4)) ∧
        jsGet vnpayQuery4 "vnp_ResponseCode" = some "00") ∧
      r.isValid = some (decide (jsGet vnpayQuery4 "vnp_SecureHash" =
        some (testEnv.hmacSHA512 testEnv.vnpayHashSecret (vnpaySignedData vnpayQuery4)))) ∧
      r.isSuccess = some (decide (jsGet vnpayQuery4 "vnp_ResponseCode" = some "00"))) :=
  ⟨by decide, vnpay_verify_correct testEnv vnpayQuery4 (by decide)⟩

/-- C4 counterexample: it is false that all four providers decide callback
acceptance by comparing a recomputed HMAC with a signature carried in the
callback: with a Stripe API reporting a succeeded intent, the Stripe branch
accepts a callback carrying nothing but a `paymentIntentId`, no value of
which matches any output of the provider HMAC functions. -/
theorem verify_hmac_counterexample :
    ¬ (∀ p ∈ (["stripe", "paypal", "vnpay", "momo"] : List String),
        ∀ (env : Env) (data : Params) (r : ServiceResult),
          paymentService.verifyPayment env p data = .ok r → r.success = true →
          carriesHmacSig env data) := by
  intro hclaim
  have h := hclaim "stripe" (by simp) stripeOkEnv [("paymentIntentId", "pi_1")]
    { success := true } (by rfl) rfl
  obtain ⟨kv, hkv, key, msg, hor⟩ := h
  have hkv' : kv = ("paymentIntentId", "pi_1") := by simpa using hkv
  subst hkv'
  rcases hor with h1 | h1 <;>
    { have h2 : ("pi_1" : String) = "ffff" := h1
      exact absurd h2 (by decide) }

/-- C4 (amended): only VNPay and MoMo verify callbacks by an HMAC check
(HMAC-SHA512 / HMAC-SHA256 under the configured secret, compared with the
carried `vnp_SecureHash` / `signature`); Stripe and PayPal verification
instead calls the provider's API (retrieving the intent's status /
executing the payment) - their outcome depends only on that API call and
involves no HMAC comparison. -/
theorem verify_hmac_per_provider :
    (∀ (env : Env) (q : Params) (r : ServiceResult),
        vnpayService.verifyPaymentCallback env q = .ok r → r.success = true →
        jsGet q "vnp_SecureHash" = some (env.hmacSHA512 env.vnpayHashSecret
          (sortedQueryString (q.filter (fun kv => decide (kv.1 ≠ "vnp_SecureHash")))))) ∧
    (∀ (env : Env) (q : Params) (r : ServiceResult),
        momoService.verifyPaymentCallback env q = .ok r → r.success = true →
        jsGet q "signature" = some (env.hmacSHA256 env.momoSecretKey
          (momoService.verifyRawSignature env q))) ∧
    (∀ (env₁ env₂ : Env) (d : Params), env₁.stripeRetrieve = env₂.stripeRetrieve →
        paymentService.verifyPayment env₁ "stripe" d =
          paymentService.verifyPayment env₂ "stripe" d) ∧
    (∀ (env₁ env₂ : Env) (d : Params), env₁.paypalExecute = env₂.paypalExecute →
        paymentService.verifyPayment env₁ "paypal" d =
          paymentService.verifyPayment env₂ "paypal" d) := by
  refine ⟨?_, ?_, ?_, ?_⟩
  · intro env q r hv hs
    have hr : r = vnpayService.verifyPaymentCallbackBody env q := by
      simpa [vnpayService.verifyPaymentCallback, catchToResult] using hv.symm
    subst hr
    unfold vnpayService.verifyPaymentCallbackBody at hs
    dsimp only at hs
    exact of_decide_eq_true ((Bool.and_eq_true _ _).mp hs).1
  · intro env q r hv hs
    have hr : r = momoService.verifyPaymentCallbackBody env q := by
      simpa [momoService.verifyPaymentCallback, catchToResult] using hv.symm
    subst hr
    unfold momoService.verifyPaymentCallbackBody at hs
    dsimp only at hs
    exact of_decide_eq_true ((Bool.and_eq_true _ _).mp hs).1
  · intro env₁ env₂ d h
    show stripeService.confirmPayment env₁ (jsGet d "paymentIntentId") =
      stripeService.confirmPayment env₂ (jsGet d "paymentIntentId")
    unfold stripeService.confirmPayment stripeService.confirmPaymentRaw
    rw [h]
  · intro env₁ env₂ d h
    show paypalService.executePayment env₁ (jsGet d "paymentId") (jsGet d "payerId") =
      paypalService.executePayment env₂ (jsGet d "paymentId") (jsGet d "payerId")
    unfold paypalService.executePayment
    rw [h]

/-- C4 witness: the amended statement applied at accepted VNPay and MoMo
callbacks and at a pair of identical environments for Stripe and PayPal. -/
theorem verify_hmac_per_provider_witness :
    jsGet vnpayOkQuery "vnp_SecureHash" = some (testEnv.hmacSHA512 testEnv.vnpayHashSecret
      (sortedQueryString (vnpayOkQuery.filter (fun kv => decide (kv.1 ≠ "vnp_SecureHash"))))) ∧
    jsGet momoOkQuery "signature" = some (testEnv.hmacSHA256 testEnv.momoSecretKey
      (momoService.verifyRawSignature testEnv momoOkQuery)) ∧
    paymentService.verifyPayment testEnv "stripe" [] =
      paymentService.verifyPayment testEnv "stripe" [] ∧
    paymentService.verifyPayment testEnv "paypal" [] =
      paymentService.verifyPayment testEnv "paypal" [] :=
  ⟨verify_hmac_per_provider.1 testEnv vnpayOkQuery
      (vnpayService.verifyPaymentCallbackBody testEnv vnpayOkQuery) rfl (by rfl),
   verify_hmac_per_provider.2.1 testEnv momoOkQuery
      (momoService.verifyPaymentCallbackBody testEnv momoOkQuery) rfl (by rfl),
   verify_hmac_per_provider.2.2.1 testEnv testEnv [] rfl,
   verify_hmac_per_provider.2.2.2 testEnv testEnv [] rfl⟩

/-- C6: `createPayment` and `verifyPayment` dispatch on the lower-cased
provider name to exactly the four gateways stripe, paypal, vnpay and momo;
any other provider gets `{ success: false, error: "Unsupported payment
provider" }` from both, independently of the environment - no provider API
is consulted. -/
theorem four_gateways (env : Env) (provider : String) (amount : Int)
    (currency orderInfo orderId returnUrl : String) (data : Params) :
    (jsToLower provider ∉ (["stripe", "paypal", "vnpay", "momo"] : List String) →
      paymentService.createPayment env provider amount currency orderInfo orderId returnUrl =
        .ok { success := false, error := some "Unsupported payment provider" } ∧
      paymentService.verifyPayment env provider data =
        .ok { success := false, error := some "Unsupported payment provider" }) ∧
    (jsToLower provider = "stripe" →
      paymentService.createPayment env provider amount currency orderInfo orderId returnUrl =
        stripeService.createPaymentIntent env amount currency ∧
      paymentService.verifyPayment env provider data =
        stripeService.confirmPayment env (jsGet data "paymentIntentId")) ∧
    (jsToLower provider = "paypal" →
      paymentService.createPayment env provider amount currency orderInfo orderId returnUrl =
        paypalService.createPayment env amount currency orderInfo returnUrl
          (returnUrl.replace "return" "cancel") ∧
      paymentService.verifyPayment env provider data =
        paypalService.executePayment env (jsGet data "paymentId") (jsGet data "payerId")) ∧
    (jsToLower provider = "vnpay" →
      paymentService.createPayment env provider amount currency orderInfo orderId returnUrl =
        vnpayService.createPaymentUrl env amount orderInfo orderId returnUrl ∧
      paymentService.verifyPayment env provider data =
        vnpayService.verifyPaymentCallback env data) ∧
    (jsToLower provider = "momo" →
      paymentService.createPayment env provider amount currency orderInfo orderId returnUrl =
        momoService.createPaymentRequest env amount orderInfo orderId returnUrl ∧
      paymentService.verifyPayment env provider data =
        momoService.verifyPaymentCallback env data) := by
  refine ⟨?_, ?_, ?_, ?_, ?_⟩
  · intro h
    have h1 : jsToLower provider ≠ "stripe" := fun he => h (by rw [he]; simp)
    have h2 : jsToLower provider ≠ "paypal" := fun he => h (by rw [he]; simp)
    have h3 : jsToLower provider ≠ "vnpay" := fun he => h (by rw [he]; simp)
    have h4 : jsToLower provider ≠ "momo" := fun he => h (by rw [he]; simp)
    constructor
    · unfold paymentService.createPayment
      dsimp only
      rw [if_neg h1, if_neg h2, if_neg h3, if_neg h4]
    · unfold paymentService.verifyPayment
      dsimp only
      rw [if_neg h1, if_neg h2, if_neg h3, if_neg h4]
  · intro h
    constructor
    · unfold paymentService.createPayment
      dsimp only
      rw [if_pos h]
    · unfold paymentService.verifyPayment
      dsimp only
      rw [if_pos h]
  · intro h
    have h1 : jsToLower provider ≠ "stripe" := by rw [h]; decide
    constructor
    · unfold paymentService.createPayment
      dsimp only
      rw [if_neg h1, if_pos h]
    · unfold paymentService.verifyPayment
      dsimp only
      rw [if_neg h1, if_pos h]
  · intro h
    have h1 : jsToLower provider ≠ "stripe" := by rw [h]; decide
    have h2 : jsToLower provider ≠ "paypal" := by rw [h]; decide
    constructor
    · unfold paymentService.createPayment
      dsimp only
      rw [if_neg h1, if_neg h2, if_pos h]
    · unfold paymentService.verifyPayment
      dsimp only
      rw [if_neg h1, if_neg h2, if_pos h]
  · intro h
    have h1 : jsToLower provider ≠ "stripe" := by rw [h]; decide
    have h2 : jsToLower provider ≠ "paypal" := by rw [h]; decide
    have h3 : jsToLower provider ≠ "vnpay" := by rw [h]; decide
    constructor
    · unfold paymentService.createPayment
      dsimp only
      rw [if_neg h1, if_neg h2, if_neg h3, if_pos h]
    · unfold paymentService.verifyPayment
      dsimp only
      rw [if_neg h1, if_neg h2, if_neg h3, if_pos h]

/-- C6 witness: an unknown provider is rejected by both operations, and the
four gateway names dispatch case-insensitively. -/
theorem four_gateways_witness :
    (paymentService.createPayment testEnv "Bitcoin" 5 "USD" "o" "1" "r" =
        .ok { success := false, error := some "Unsupported payment provider" } ∧
      paymentService.verifyPayment testEnv "Bitcoin" [] =
        .ok { success := false, error := some "Unsupported payment provider" }) ∧
    paymentService.verifyPayment testEnv "STRIPE" [] =
      stripeService.confirmPayment testEnv (jsGet [] "paymentIntentId") ∧
    paymentService.createPayment testEnv "PayPal" 5 "USD" "o" "1" "r" =
      paypalService.createPayment testEnv 5 "USD" "o" "r" ("r".replace "return" "cancel") ∧
    paymentService.verifyPayment testEnv "VNPay" [] =
      vnpayService.verifyPaymentCallback testEnv [] ∧
    paymentService.createPayment testEnv "MoMo" 5 "USD" "o" "1" "r" =
      momoService.createPaymentRequest testEnv 5 "o" "1" "r" :=
  ⟨(four_gateways testEnv "Bitcoin" 5 "USD" "o" "1" "r" []).1 (by decide),
   ((four_gateways testEnv "STRIPE" 5 "USD" "o" "1" "r" []).2.1 (by decide)).2,
   ((four_gateways testEnv "PayPal" 5 "USD" "o" "1" "r" []).2.2.1 (by decide)).1,
   ((four_gateways testEnv "VNPay" 5 "USD" "o" "1" "r" []).2.2.2.1 (by decide)).2,
   ((four_gateways testEnv "MoMo" 5 "USD" "o" "1" "r" []).2.2.2.2 (by decide)).1⟩

/-- Every try/catch wrapper resolves normally. -/
theorem catchToResult_ok (x : Except String ServiceResult) :
    ∃ r, catchToResult x = .ok r := by
  cases x <;> exact ⟨_, rfl⟩

/-- C7: the unified payment-service operations (create, verify, refund)
always resolve with a result object - no exception propagates to the
caller, whatever the provider and whatever the external APIs do - and an
error thrown inside a provider body is caught and returned as
`{ success: false, error: message }`. -/
theorem errors_as_values (env : Env) (provider : String) (amount : Int)
    (currency orderInfo orderId returnUrl : String) (data : Params)
    (paymentId : Option String) (refundAmount : Option Int) :
    (∃ r, paymentService.createPayment env provider amount currency orderInfo
      orderId returnUrl = .ok r) ∧
    (∃ r, paymentService.verifyPayment env provider data = .ok r) ∧
    (∃ r, paymentService.createRefund env provider paymentId refundAmount = .ok r) ∧
    (∀ msg, stripeService.createPaymentIntentRaw env amount currency = .error msg →
      stripeService.createPaymentIntent env amount currency =
        .ok { success := false, error := some msg }) ∧
    (∀ msg, momoService.createPaymentRequestRaw env amount orderInfo orderId returnUrl =
        .error msg →
      momoService.createPaymentRequest env amount orderInfo orderId returnUrl =
        .ok { success := false, error := some msg }) := by
  refine ⟨?_, ?_, ?_, ?_, ?_⟩
  · unfold paymentService.createPayment
    dsimp only
    repeat' split
    all_goals first
      | exact catchToResult_ok _
      | exact ⟨_, rfl⟩
  · unfold paymentService.verifyPayment
    dsimp only
    repeat' split
    all_goals first
      | exact catchToResult_ok _
      | exact ⟨_, rfl⟩
  · unfold paymentService.createRefund
    dsimp only
    repeat' split
    all_goals first
      | exact catchToResult_ok _
      | exact ⟨_, rfl⟩
  · intro msg h
    unfold stripeService.createPaymentIntent
    rw [h]
    rfl
  · intro msg h
    unfold momoService.createPaymentRequest
    rw [h]
    rfl

/-- C7 witness: with offline provider APIs every operation still resolves,
and the thrown network errors come back as failure results. -/
theorem errors_as_values_witness :
    (∃ r, paymentService.createPayment testEnv "stripe" 5 "usd" "o" "1" "r" = .ok r) ∧
    stripeService.createPaymentIntent testEnv 5 "usd" =
      .ok { success := false, error := some "no network" } ∧
    momoService.createPaymentRequest testEnv 5 "o" "1" "r" =
      .ok { success := false, error := some "no network" } :=
  ⟨(errors_as_values testEnv "stripe" 5 "usd" "o" "1" "r" [] none none).1,
   (errors_as_values testEnv "stripe" 5 "usd" "o" "1" "r" [] none none).2.2.2.1
     "no network" (by rfl),
   (errors_as_values testEnv "stripe" 5 "usd" "o" "1" "r" [] none none).2.2.2.2
     "no network" (by rfl)⟩

end NextGen
